import Mathlib

/-!
A shallow embedding of the weather-data ingestion pipeline
(src/config.py, src/utils.py, src/models.py, src/ingestion.py).

Conventions of the embedding:
* Python floats are modelled as rationals (`ℚ`); every numeric bound in the
  source is an exact decimal, so no rounding behaviour is involved in any
  property proved here.
* Calendar dates are modelled by their proleptic Gregorian ordinal (an `Int`),
  exactly as Python's `date.toordinal`; `date.min.toordinal() = 1` and
  `date.max.toordinal() = 3652059`.
* Fallible Python code is modelled with `Except PyErr`; a raised exception
  that escapes a function is an `Except.error`.
* External effects (the HTTP GET of `requests.get`, the filesystem / S3
  write) are modelled by oracle inputs giving each call's outcome; logging
  and the inter-location pacing sleep are elided, as no property here
  depends on them.
-/

namespace WeatherPipeline

/-- Python runtime errors that the embedded code can raise. -/
inductive PyErr where
  | typeError
  | valueError (msg : String)
  | overflowError
deriving Repr, DecidableEq

instance {ε α : Type} [DecidableEq ε] [DecidableEq α] : DecidableEq (Except ε α) := fun a b =>
  match a, b with
  | .ok x, .ok y =>
    if h : x = y then .isTrue (congrArg Except.ok h)
    else .isFalse (fun he => h (Except.ok.inj he))
  | .error x, .error y =>
    if h : x = y then .isTrue (congrArg Except.error h)
    else .isFalse (fun he => h (Except.error.inj he))
  | .ok _, .error _ => .isFalse (fun he => Except.noConfusion he)
  | .error _, .ok _ => .isFalse (fun he => Except.noConfusion he)

/-! ## src/utils.py: get_date_range (lines 11-21)

`get_date_range(days)` computes `end_date = datetime.now().date() - timedelta(days=1)`
and `start_date = end_date - timedelta(days=days)`, returning both as ISO strings.
Dates are modelled as ordinals; `today` (the ordinal of `datetime.now().date()`)
is a parameter.  The Python body contains no validity check of its own: the only
way it can fail is the `OverflowError` that `date` arithmetic raises when the
resulting date falls outside the representable calendar range `[1, 3652059]`
(for huge `days` of either sign).  `today` itself comes from the system clock
and is always a valid modern date, so only `start_date` can fall out of range. -/

/-- Ordinal of `date.min` (`0001-01-01`). -/
def dateMinOrdinal : Int := 1

/-- Ordinal of `date.max` (`9999-12-31`). -/
def dateMaxOrdinal : Int := 3652059

/-- Model of `get_date_range` from src/utils.py lines 11-21, on date ordinals:
`end_date` is `today - 1` and `start_date` is `end_date - days`. -/
def get_date_range (today : Int) (days : Int) : Except PyErr (Int × Int) :=
  if today - 1 - days < dateMinOrdinal ∨ dateMaxOrdinal < today - 1 - days then
    .error .overflowError
  else
    .ok (today - 1 - days, today - 1)

/-- Helper: on any lookback whose start date is representable, `get_date_range`
returns `(end_date - days, end_date)` with `end_date = today - 1`. -/
theorem get_date_range_ok_of_bounds (today days : Int)
    (h : dateMinOrdinal ≤ today - 1 - days ∧ today - 1 - days ≤ dateMaxOrdinal) :
    get_date_range today days = .ok (today - 1 - days, today - 1) := by
  unfold get_date_range
  rw [if_neg (by unfold dateMinOrdinal dateMaxOrdinal at h ⊢; omega)]

/-! ## src/utils.py: fetch_api_with_retry (lines 23-47)

The per-attempt HTTP GET (`rq.get` followed by `raise_for_status` and
`.json()`) is abstracted by an oracle `get : Nat → GetResult` giving the
outcome of the attempt with that number: `success payload` for a 2xx response
whose body decodes, `failure` for a `RequestException` (network-level error,
timeout, or non-2xx status raised by `raise_for_status`).

The source's `except RequestException` handler begins with

  `logger.info(f"Retries {attempt/max_retries} failed: " + {e})`   (line 37)

whose argument concatenates a `str` with the set literal `{e}`; in Python this
raises `TypeError` before `logger.info` is ever called.  The handler therefore
raises on every failed attempt, so lines 39-46 (the backoff sleep, the retry,
the critical log and the `return None`) are unreachable whenever an attempt
fails, and the loop can never advance past its first iteration.  The model
records that behaviour exactly. -/

/-- Outcome of one underlying HTTP GET attempt. -/
inductive GetResult (α : Type) where
  | success (payload : α)
  | failure
deriving Repr, DecidableEq

/-- Observable behaviour of one call of `fetch_api_with_retry`:
how many GET calls were made, which backoff sleeps ran (in order, in
seconds), and the result (a decoded payload, `none` for the definitive
no-payload result, or a raised exception). -/
structure FetchTrace (α : Type) where
  getCalls : Nat
  sleeps : List Nat
  result : Except PyErr (Option α)
deriving Repr, DecidableEq

/-- One iteration of the `for attempt in range(1, max_retries + 1)` loop of
`fetch_api_with_retry` (src/utils.py lines 31-46), starting at `attempt`,
having already made `calls` GET calls and performed `sleeps` sleeps. -/
def fetchLoop {α : Type} (get : Nat → GetResult α) (max_retries attempt calls : Nat)
    (sleeps : List Nat) : FetchTrace α :=
  if max_retries < attempt then
    -- loop exhausted without returning: `return None` (line 47)
    ⟨calls, sleeps, .ok none⟩
  else
    match get attempt with
    | .success payload =>
      -- lines 33-35: response OK, decoded body returned immediately
      ⟨calls + 1, sleeps, .ok (some payload)⟩
    | .failure =>
      -- line 37: the handler evaluates `f"..." + {e}` (str + set), raising
      -- TypeError through to the caller; lines 39-46 are unreachable
      ⟨calls + 1, sleeps, .error .typeError⟩

/-- Model of `fetch_api_with_retry` from src/utils.py lines 23-47. -/
def fetch_api_with_retry {α : Type} (get : Nat → GetResult α) (max_retries : Nat) : FetchTrace α :=
  fetchLoop get max_retries 1 0 []

/-- A GET oracle that fails its first `k` attempts and succeeds afterwards. -/
def failThenSucceed {α : Type} (payload : α) (k : Nat) : Nat → GetResult α := fun n =>
  if n ≤ k then .failure else .success payload

/-- C1: the spec says `fetch_api_with_retry` never raises through to its
caller and handles every failed GET internally.  In the code, any attempt
whose GET fails enters the `except` handler, whose first statement
concatenates a string with the set literal containing the exception and
raises `TypeError` to the caller after exactly one GET call and no sleeps. -/
theorem fetch_raises_TypeError_on_failed_attempt {α : Type} (get : Nat → GetResult α)
    (max_retries : Nat) (h1 : 1 ≤ max_retries) (h2 : get 1 = GetResult.failure) :
    fetch_api_with_retry get max_retries = ⟨1, [], .error .typeError⟩ := by
  unfold fetch_api_with_retry fetchLoop
  rw [if_neg (by omega), h2]

theorem fetch_raises_TypeError_on_failed_attempt_witness :
    fetch_api_with_retry (fun _ => (GetResult.failure : GetResult Nat)) 3 =
      ⟨1, [], .error .typeError⟩ :=
  fetch_raises_TypeError_on_failed_attempt (fun _ => (GetResult.failure : GetResult Nat)) 3
    (by decide) rfl

/-- C3: the spec says that with a GET failing its first `k < max_attempts`
calls and succeeding afterwards, the fetch returns the payload after `k+1`
calls with `k` backoff sleeps of `2, 4, ..., 2^k` seconds.  In the code, for
any `k ≥ 1` the first failed attempt raises `TypeError` (see line 37), so the
fetch makes exactly one GET call, performs no sleeps, and raises instead of
returning the payload. -/
theorem fetch_retry_schedule_never_runs {α : Type} (payload : α) (k max_retries : Nat)
    (hk : 1 ≤ k) (hm : 1 ≤ max_retries) :
    fetch_api_with_retry (failThenSucceed payload k) max_retries =
      ⟨1, [], .error .typeError⟩ := by
  apply fetch_raises_TypeError_on_failed_attempt _ _ hm
  unfold failThenSucceed
  rw [if_pos hk]

theorem fetch_retry_schedule_never_runs_witness :
    fetch_api_with_retry (failThenSucceed 7 2) 3 = ⟨1, [], .error .typeError⟩ :=
  fetch_retry_schedule_never_runs (7 : Nat) 2 3 (by decide) (by decide)

/-- C9 counterexample: the spec says the date-range computation rejects a
negative lookback (its only error condition) and returns without error for
every non-negative lookback.  The code has no negativity check at all: a
lookback of `-5` succeeds (start date after end date), while a non-negative
lookback of `1000000` raises `OverflowError` (start date before `date.min`).
`739901` is the ordinal of a modern calendar date. -/
theorem get_date_range_negative_accepted_cex :
    get_date_range 739901 (-5) = .ok (739905, 739900) ∧
    get_date_range 739901 1000000 = .error .overflowError := by
  constructor <;> rfl

/-- C9 amended: the date-range computation never rejects a negative lookback;
for every integer lookback (of either sign) whose computed start date is a
representable calendar date it returns `(end_date - days, end_date)` with
`end_date` = yesterday, and it raises `OverflowError` exactly when the start
date falls outside the representable range. -/
theorem get_date_range_total (today days : Int)
    (h : dateMinOrdinal ≤ today - 1 - days ∧ today - 1 - days ≤ dateMaxOrdinal) :
    get_date_range today days = .ok (today - 1 - days, today - 1) :=
  get_date_range_ok_of_bounds today days h

theorem get_date_range_total_witness :
    get_date_range 739901 (-5) = .ok (739901 - 1 - (-5), 739901 - 1) :=
  get_date_range_total 739901 (-5) (by constructor <;> decide)


/-! ## src/models.py: the pydantic data models

The embedding starts from payloads that already have the structural shape of
the models (spec layer 1, pydantic's type decode, is assumed to have passed:
each field is present with sequences of the right primitive type).  What is
modelled is pydantic v2's validation order on such a payload, exactly as the
library runs it on `WeatherAPIResponse(**raw_json)`:

* each field's validators run first, in field declaration order, and the
  errors of all fields are collected (`@field_validator(..., mode='after')`
  and the `Field(ge=..., le=...)` constraints);
* the `@model_validator(mode='after')` (`check_all_length_is_match`) runs
  only if no field produced an error;
* a nested model (`hourly`) is validated as a field of the outer model, its
  errors reported under the `hourly` path.

Each source validator raises on the first violating value of its list, so it
contributes at most one error.  Numeric formatting inside messages uses the
rational's canonical form where Python would print a float; no claim depends
on that formatting.  A `VError` is one entry of pydantic's `e.errors()`:
a field path and a human-readable reason. -/

/-- One structured validation failure: field path and reason. -/
structure VError where
  loc : List String
  msg : String
deriving Repr, DecidableEq

/-- Model of `HourlyData` (src/models.py lines 5-11) after structural decode. -/
structure HourlyData where
  time : List String
  temperature_2m : List ℚ
  relative_humidity_2m : List ℚ
  weather_code : List Int
  wind_speed_10m : List ℚ
  precipitation : List ℚ
deriving Repr, DecidableEq

/-- Model of `HourlyUnitData` (src/models.py lines 63-69). -/
structure HourlyUnitData where
  time : String
  temperature_2m : String
  relative_humidity_2m : String
  weather_code : String
  wind_speed_10m : String
  precipitation : String
deriving Repr, DecidableEq

/-- Model of `WeatherAPIResponse` (src/models.py lines 71-88) after
structural decode. -/
structure WeatherAPIResponse where
  latitude : ℚ
  longitude : ℚ
  generationtime_ms : ℚ
  utc_offset_seconds : ℚ
  timezone : String
  timezone_abbreviation : String
  elevation : ℚ
  hourly_units : HourlyUnitData
  hourly : HourlyData
deriving Repr, DecidableEq

/-- The first value of `vs` outside `[lo, hi]`, if any (each source range
validator loops over its list and raises on the first violation). -/
def firstViolation (lo hi : ℚ) (vs : List ℚ) : Option ℚ :=
  vs.find? (fun v => decide (v < lo) || decide (hi < v))

/-- Model of `check_temperature_range` (src/models.py lines 23-29). -/
def check_temperature_range (vs : List ℚ) : List VError :=
  match firstViolation (-60) 60 vs with
  | some v => [⟨["temperature_2m"], "Temperature " ++ toString v ++ "°C out of valid range (-60 to 60)"⟩]
  | none => []

/-- Model of `check_humidity_range` (src/models.py lines 31-37). -/
def check_humidity_range (vs : List ℚ) : List VError :=
  match firstViolation 0 100 vs with
  | some v => [⟨["relative_humidity_2m"], "Humidity " ++ toString v ++ "% out of valid range (0 to 100)"⟩]
  | none => []

/-- Model of `check_weather_code_range` (src/models.py lines 39-45). -/
def check_weather_code_range (vs : List Int) : List VError :=
  match vs.find? (fun v => decide (v < 0) || decide (99 < v)) with
  | some v => [⟨["weather_code"], "Weather code " ++ toString v ++ " out of valid range (0 to 99)"⟩]
  | none => []

/-- Model of `check_wind_speed_range` (src/models.py lines 47-53). -/
def check_wind_speed_range (vs : List ℚ) : List VError :=
  match firstViolation 0 400 vs with
  | some v => [⟨["wind_speed_10m"], "Wind speed " ++ toString v ++ "km/h out of valid range (0 to 400)"⟩]
  | none => []

/-- Model of `check_precipitation_range` (src/models.py lines 55-61). -/
def check_precipitation_range (vs : List ℚ) : List VError :=
  match firstViolation 0 500 vs with
  | some v => [⟨["precipitation"], "Precipitation " ++ toString v ++ "mm out of valid range (0 to 500)"⟩]
  | none => []

/-- The collected errors of all `HourlyData` field validators, in field
declaration order (`time` has no validator). -/
def hourlyFieldErrors (h : HourlyData) : List VError :=
  check_temperature_range h.temperature_2m ++
  check_humidity_range h.relative_humidity_2m ++
  check_weather_code_range h.weather_code ++
  check_wind_speed_range h.wind_speed_10m ++
  check_precipitation_range h.precipitation

/-- The set of distinct sequence lengths of the six list fields, as computed
by `check_all_length_is_match` (src/models.py lines 13-20). -/
def lengthSet (h : HourlyData) : List Nat :=
  [h.time.length, h.temperature_2m.length, h.relative_humidity_2m.length,
   h.weather_code.length, h.wind_speed_10m.length, h.precipitation.length].dedup

/-- Model of `check_all_length_is_match` (src/models.py lines 13-20): the
`@model_validator(mode='after')`, raising when the distinct lengths number
more than one.  Pydantic reports a model-validator error with an empty path. -/
def check_all_length_is_match (h : HourlyData) : List VError :=
  if (lengthSet h).length > 1 then
    [⟨[], "Mismatched array lengths: " ++ toString (lengthSet h)⟩]
  else []

/-- Full pydantic validation of `HourlyData`: field validators first (their
errors collected across fields), then, only when every field passed, the
after-model validator `check_all_length_is_match`. -/
def validateHourlyData (h : HourlyData) : Except (List VError) HourlyData :=
  if (hourlyFieldErrors h).isEmpty then
    if (check_all_length_is_match h).isEmpty then .ok h
    else .error (check_all_length_is_match h)
  else .error (hourlyFieldErrors h)

/-- Errors of a pydantic `Field` bound constraint (`ge` lo, `le` hi) on `v`. -/
def boundErrors (field : String) (lo hi : ℚ) (v : ℚ) : List VError :=
  (if v < lo then [⟨[field], "Input should be greater than or equal to " ++ toString lo⟩] else []) ++
  (if hi < v then [⟨[field], "Input should be less than or equal to " ++ toString hi⟩] else [])

/-- Model of `is_gmt_timezone` (src/models.py lines 83-88), applied to one of
the two timezone fields. -/
def is_gmt_timezone (field : String) (value : String) : List VError :=
  if value = "GMT" then [] else [⟨[field], "Expected GMT, but got " ++ value⟩]

/-- The collected errors of all `WeatherAPIResponse` field validators, in
field declaration order; the nested `hourly` model's errors appear under the
`hourly` path. -/
def weatherFieldErrors (w : WeatherAPIResponse) : List VError :=
  boundErrors ("latitude") (-90) 90 w.latitude ++
  boundErrors ("longitude") (-180) 180 w.longitude ++
  is_gmt_timezone ("timezone") w.timezone ++
  is_gmt_timezone ("timezone_abbreviation") w.timezone_abbreviation ++
  (match validateHourlyData w.hourly with
   | .ok _ => []
   | .error es => es.map (fun e => ⟨"hourly" :: e.loc, e.msg⟩))

/-- Full pydantic validation of `WeatherAPIResponse`, as run by
`WeatherAPIResponse(**raw_json)` in `validate_data` (src/ingestion.py). -/
def validateWeatherAPIResponse (w : WeatherAPIResponse) :
    Except (List VError) WeatherAPIResponse :=
  if (weatherFieldErrors w).isEmpty then .ok w else .error (weatherFieldErrors w)

/-- Model of `validate_data` (src/ingestion.py lines 37-65): the validated
model on success, `None` on a validation failure. -/
def validate_data (raw : WeatherAPIResponse) : Option WeatherAPIResponse :=
  match validateWeatherAPIResponse raw with
  | .ok m => some m
  | .error _ => none

/-! ## Claims C4 and C7: validation ordering and envelope invariants -/

/-- A payload whose sequences have mismatched lengths (`time` has 2 entries,
`temperature_2m` has 1) and whose single temperature is out of range. -/
def mismatchedHourly : HourlyData :=
  ⟨["2024-01-01T00:00", "2024-01-01T01:00"], [100], [50, 55], [1, 2], [10, 12], [0, 0]⟩

/-- A payload whose sequences have mismatched lengths but whose values are
all inside their ranges. -/
def mismatchedInRangeHourly : HourlyData :=
  ⟨["2024-01-01T00:00", "2024-01-01T01:00"], [20], [50, 55], [1, 2], [10, 12], [0, 0]⟩

/-- C4 counterexample: the claim says a length-mismatched payload is reported
as a length mismatch and no per-value range check is applied.  On this
length-mismatched payload the code applies the temperature range check first
(pydantic field validators run before the after-model validator), and the
sole reported failure is the range violation; the length mismatch is never
reported even though the length set has two elements. -/
theorem hourly_range_checked_despite_mismatch_cex :
    validateHourlyData mismatchedHourly =
      .error [⟨["temperature_2m"], "Temperature 100°C out of valid range (-60 to 60)"⟩] ∧
    (lengthSet mismatchedHourly).length > 1 := by
  constructor
  · decide
  · decide

/-- C4 amended: per-value range checks are applied to every payload by the
field validators, before the length-consistency model validator ever runs; a
payload with mismatched sequence lengths is always rejected, but the failure
cites the length mismatch precisely when every per-field range check passed,
and otherwise cites the range violations instead. -/
theorem hourly_length_mismatch_after_ranges (h : HourlyData)
    (hm : (lengthSet h).length > 1) :
    (∃ errs, validateHourlyData h = .error errs) ∧
    (hourlyFieldErrors h ≠ [] → validateHourlyData h = .error (hourlyFieldErrors h)) ∧
    (hourlyFieldErrors h = [] →
      validateHourlyData h =
        .error [⟨[], "Mismatched array lengths: " ++ toString (lengthSet h)⟩]) := by
  have hc : check_all_length_is_match h =
      [⟨[], "Mismatched array lengths: " ++ toString (lengthSet h)⟩] := by
    unfold check_all_length_is_match
    rw [if_pos hm]
  unfold validateHourlyData
  by_cases hf : (hourlyFieldErrors h).isEmpty
  · have hfe : hourlyFieldErrors h = [] := by rw [List.isEmpty_iff] at hf; exact hf
    rw [if_pos hf, hc]
    exact ⟨⟨_, rfl⟩, fun hne => absurd hfe hne, fun _ => rfl⟩
  · have hfe : hourlyFieldErrors h ≠ [] := by
      intro hx
      exact hf (by rw [List.isEmpty_iff]; exact hx)
    rw [if_neg hf]
    exact ⟨⟨_, rfl⟩, fun _ => rfl, fun hx => absurd hx hfe⟩

theorem hourly_length_mismatch_after_ranges_witness :
    (∃ errs, validateHourlyData mismatchedInRangeHourly = .error errs) ∧
    (hourlyFieldErrors mismatchedInRangeHourly ≠ [] →
      validateHourlyData mismatchedInRangeHourly =
        .error (hourlyFieldErrors mismatchedInRangeHourly)) ∧
    (hourlyFieldErrors mismatchedInRangeHourly = [] →
      validateHourlyData mismatchedInRangeHourly =
        .error [⟨[], "Mismatched array lengths: " ++ toString (lengthSet mismatchedInRangeHourly)⟩]) :=
  hourly_length_mismatch_after_ranges mismatchedInRangeHourly (by decide)

/-- Helper: an empty `Field(ge, le)` error list means the value is in bounds. -/
theorem boundErrors_eq_nil {field : String} {lo hi v : ℚ}
    (h : boundErrors field lo hi v = []) : lo ≤ v ∧ v ≤ hi := by
  unfold boundErrors at h
  rw [List.append_eq_nil] at h
  obtain ⟨h1, h2⟩ := h
  constructor
  · by_contra hlt
    rw [if_pos (not_le.mp hlt)] at h1
    exact absurd h1 (by simp)
  · by_contra hlt
    rw [if_pos (not_le.mp hlt)] at h2
    exact absurd h2 (by simp)

/-- Helper: an empty timezone error list means the value is the literal GMT. -/
theorem is_gmt_timezone_eq_nil {field v : String}
    (h : is_gmt_timezone field v = []) : v = "GMT" := by
  unfold is_gmt_timezone at h
  by_cases hv : v = "GMT"
  · exact hv
  · rw [if_neg hv] at h
    exact absurd h (by simp)

/-- Helper: a non-GMT value yields the error citing the expected value GMT. -/
theorem is_gmt_timezone_mem {field v : String} (h : v ≠ "GMT") :
    VError.mk [field] ("Expected GMT, but got " ++ v) ∈ is_gmt_timezone field v := by
  unfold is_gmt_timezone
  rw [if_neg h]
  exact List.mem_singleton.mpr rfl

/-- C7: validation of a payload succeeds only if the top-level latitude is in
[-90, 90], the longitude is in [-180, 180], and both timezone fields equal
the literal GMT; and any payload with a non-GMT `timezone` (e.g. PST) is
rejected with a failure citing the expected value GMT. -/
theorem weather_envelope_invariants :
    (∀ w w2 : WeatherAPIResponse, validateWeatherAPIResponse w = .ok w2 →
      -90 ≤ w.latitude ∧ w.latitude ≤ 90 ∧
      -180 ≤ w.longitude ∧ w.longitude ≤ 180 ∧
      w.timezone = "GMT" ∧ w.timezone_abbreviation = "GMT") ∧
    (∀ w : WeatherAPIResponse, w.timezone ≠ "GMT" →
      validateWeatherAPIResponse w = .error (weatherFieldErrors w) ∧
      VError.mk ["timezone"] ("Expected GMT, but got " ++ w.timezone) ∈
        weatherFieldErrors w) := by
  constructor
  · intro w w2 hok
    have hnil : weatherFieldErrors w = [] := by
      unfold validateWeatherAPIResponse at hok
      by_cases he : (weatherFieldErrors w).isEmpty
      · rw [List.isEmpty_iff] at he
        exact he
      · rw [if_neg he] at hok
        exact absurd hok (by simp)
    unfold weatherFieldErrors at hnil
    simp only [List.append_eq_nil] at hnil
    have hlat := hnil.1.1.1.1
    have hlon := hnil.1.1.1.2
    have htz := hnil.1.1.2
    have htza := hnil.1.2
    obtain ⟨hlat1, hlat2⟩ := boundErrors_eq_nil hlat
    obtain ⟨hlon1, hlon2⟩ := boundErrors_eq_nil hlon
    exact ⟨hlat1, hlat2, hlon1, hlon2, is_gmt_timezone_eq_nil htz, is_gmt_timezone_eq_nil htza⟩
  · intro w hw
    have hmem : VError.mk ["timezone"] ("Expected GMT, but got " ++ w.timezone) ∈
        weatherFieldErrors w := by
      unfold weatherFieldErrors
      have hin := @is_gmt_timezone_mem ("timezone") w.timezone hw
      simp only [List.mem_append]
      tauto
    have hne : weatherFieldErrors w ≠ [] := List.ne_nil_of_mem hmem
    refine ⟨?_, hmem⟩
    unfold validateWeatherAPIResponse
    rw [if_neg ?_]
    intro hx
    rw [List.isEmpty_iff] at hx
    exact hne hx

/-- The happy-path hourly series used by concrete runs: two time points, all
values in range. -/
def gmtHourly : HourlyData :=
  ⟨["2024-01-01T00:00", "2024-01-01T01:00"], [20, 18], [50, 55], [1, 2], [10, 12], [0, 0]⟩

/-- The units sub-object (pure data, no validator). -/
def sampleUnits : HourlyUnitData :=
  ⟨"iso8601", "C", "percent", "wmo code", "km/h", "mm"⟩

/-- A structurally valid payload satisfying every invariant. -/
def samplePayload : WeatherAPIResponse :=
  ⟨52, 13, 0, 0, "GMT", "GMT", 38, sampleUnits, gmtHourly⟩

/-- The same payload with `timezone` set to PST. -/
def pstPayload : WeatherAPIResponse :=
  ⟨52, 13, 0, 0, "PST", "GMT", 38, sampleUnits, gmtHourly⟩

theorem weather_envelope_invariants_witness :
    validateWeatherAPIResponse pstPayload = .error (weatherFieldErrors pstPayload) ∧
    VError.mk ["timezone"] ("Expected GMT, but got " ++ pstPayload.timezone) ∈
      weatherFieldErrors pstPayload :=
  weather_envelope_invariants.2 pstPayload (by decide)

/-! ## src/config.py and src/ingestion.py: configuration, persistence, and
the orchestration loop

`datetime` values are modelled with second granularity: every component that
reaches a stored key or the `ingested_at` field is derived from the single
`datetime.now()` value captured in `main` before the loop, so sub-second
fields would be constant across a run exactly like the ones modelled.

`save_raw_data` (src/ingestion.py lines 69-139) is modelled with its write
effect recorded as the returned artifact: the key it writes under (an S3 URL
or a local file path) and the JSON body it writes.  Python's
`if not bucket_name` is falsy for both a missing and an empty
`S3_BUCKET_NAME`, hence the two error cases. -/

/-- A wall-clock timestamp, as captured by `datetime.now()`. -/
structure Timestamp where
  year : Nat
  month : Nat
  day : Nat
  hour : Nat
  minute : Nat
  second : Nat
deriving Repr, DecidableEq

/-- Zero-padded two-digit formatting, as Python `%02d` / `%m` / `%d`. -/
def pad2 (n : Nat) : String := if n < 10 then "0" ++ toString n else toString n

/-- Zero-padded four-digit formatting, as `%Y` for calendar years. -/
def pad4 (n : Nat) : String :=
  if n < 10 then "000" ++ toString n
  else if n < 100 then "00" ++ toString n
  else if n < 1000 then "0" ++ toString n
  else toString n

/-- Python `timestamp.strftime("%Y%m%d")`. -/
def strftime_Ymd (ts : Timestamp) : String := pad4 ts.year ++ pad2 ts.month ++ pad2 ts.day

/-- Python `timestamp.strftime("%H%M%S")`. -/
def strftime_HMS (ts : Timestamp) : String := pad2 ts.hour ++ pad2 ts.minute ++ pad2 ts.second

/-- Python `timestamp.isoformat()` (sub-second part elided, see above). -/
def isoformat (ts : Timestamp) : String :=
  pad4 ts.year ++ "-" ++ pad2 ts.month ++ "-" ++ pad2 ts.day ++ "T" ++
  pad2 ts.hour ++ ":" ++ pad2 ts.minute ++ ":" ++ pad2 ts.second

/-- Model of Python `str.lower()` on the ASCII city names used here. -/
def pyLower (s : String) : String := String.mk (s.data.map Char.toLower)

/-- Model of Python `.replace(" ", "")`: removes every space. -/
def pyRemoveSpaces (s : String) : String := String.mk (s.data.filter (fun c => c ≠ ' '))

/-- Model of the `City` dataclass (src/config.py lines 22-27). -/
structure City where
  name : String
  latitude : ℚ
  longitude : ℚ
  country : String
deriving Repr, DecidableEq

/-- The configured city list (src/config.py lines 29-33). -/
def newYork : City := ⟨"New York", 40.7128, -74.0060, "USA"⟩

def singapore : City := ⟨"Singapore", 1.3048, 103.8312, "Singapore"⟩

def tokyo : City := ⟨"Tokyo", 35.6815, 139.7671, "Japan"⟩

def CITIES : List City := [newYork, singapore, tokyo]

/-- `HISTORY_DAYS` (src/config.py line 12). -/
def HISTORY_DAYS : Int := 30

/-- `MAX_RETRIES` (src/config.py line 8). -/
def MAX_RETRIES : Nat := 3

/-- The local file path written by the non-Lambda branch of `save_raw_data`
(src/ingestion.py lines 119-124): the city name is lowered and spaces are
removed. -/
def local_filepath (city : City) (ts : Timestamp) : String :=
  "data/raw/year=" ++ toString ts.year ++ "/month=" ++ pad2 ts.month ++
  "/day=" ++ pad2 ts.day ++ "/" ++ pyRemoveSpaces (pyLower city.name) ++
  "_" ++ strftime_Ymd ts ++ "_" ++ strftime_HMS ts ++ ".json"

/-- The S3 object key of the Lambda branch (src/ingestion.py line 95): the
city name is lowered but spaces are kept. -/
def s3_key (city : City) (ts : Timestamp) : String :=
  "raw/year=" ++ toString ts.year ++ "/month=" ++ pad2 ts.month ++
  "/day=" ++ pad2 ts.day ++ "/" ++ pyLower city.name ++
  "_" ++ strftime_Ymd ts ++ "_" ++ strftime_HMS ts ++ ".json"

/-- One stored artifact: the key written to (S3 URL or local file path) and
the JSON body (src/ingestion.py lines 97-104 and 126-133). -/
structure SavedArtifact where
  key : String
  ingested_at : String
  city : String
  latitude : ℚ
  longitude : ℚ
  country : String
  raw_response : WeatherAPIResponse
deriving Repr, DecidableEq

/-- Model of `save_raw_data` (src/ingestion.py lines 69-139). -/
def save_raw_data (is_lambda : Bool) (bucket_name : Option String) (city : City)
    (ts : Timestamp) (data : WeatherAPIResponse) : Except PyErr SavedArtifact :=
  if is_lambda then
    match bucket_name with
    | none => .error (.valueError "S3_BUCKET_NAME environment variable is not set")
    | some b =>
      if b = "" then .error (.valueError "S3_BUCKET_NAME environment variable is not set")
      else
        .ok ⟨"s3://" ++ b ++ "/" ++ s3_key city ts, isoformat ts, city.name,
             city.latitude, city.longitude, city.country, data⟩
  else
    .ok ⟨local_filepath city ts, isoformat ts, city.name, city.latitude,
         city.longitude, city.country, data⟩

/-- The key that a successful `save_raw_data` call writes under. -/
def keyOf (is_lambda : Bool) (bucket_name : Option String) (city : City)
    (ts : Timestamp) : String :=
  if is_lambda then "s3://" ++ bucket_name.getD "" ++ "/" ++ s3_key city ts
  else local_filepath city ts

/-- Helper: every successful save stamps the artifact with the timestamp it
was called with, both in `ingested_at` and in the key. -/
theorem save_raw_data_ok_spec {is_lambda : Bool} {bucket_name : Option String}
    {city : City} {ts : Timestamp} {data : WeatherAPIResponse} {a : SavedArtifact}
    (h : save_raw_data is_lambda bucket_name city ts data = .ok a) :
    a.ingested_at = isoformat ts ∧ a.key = keyOf is_lambda bucket_name city ts := by
  cases is_lambda with
  | false =>
    rw [show a = ⟨local_filepath city ts, isoformat ts, city.name, city.latitude,
          city.longitude, city.country, data⟩ from (Except.ok.inj h).symm]
    exact ⟨rfl, rfl⟩
  | true =>
    cases bucket_name with
    | none => exact absurd h (by simp [save_raw_data])
    | some b =>
      by_cases hb : b = ""
      · rw [show save_raw_data true (some b) city ts data =
            .error (.valueError "S3_BUCKET_NAME environment variable is not set") from
            by simp [save_raw_data, hb]] at h
        exact absurd h (by simp)
      · rw [show save_raw_data true (some b) city ts data =
            .ok ⟨"s3://" ++ b ++ "/" ++ s3_key city ts, isoformat ts, city.name,
                 city.latitude, city.longitude, city.country, data⟩ from
            by simp [save_raw_data, hb]] at h
        rw [(Except.ok.inj h).symm]
        exact ⟨rfl, by simp [keyOf]⟩

/-- The summary dict returned by `main` (src/ingestion.py lines 206-211). -/
structure RunSummary where
  success_count : Nat
  failure_count : Nat
  total_records : Nat
  cities_processed : List String
deriving Repr, DecidableEq

/-- Observable behaviour of one `main()` run: the computed date range, how
many per-city fetch calls were made, the artifacts persisted (in order), and
the returned summary or the exception that escaped. -/
structure RunTrace where
  dateRange : Except PyErr (Int × Int)
  fetchCalls : Nat
  saved : List SavedArtifact
  result : Except PyErr RunSummary
deriving Repr, DecidableEq

/-- The per-city loop of `main` (src/ingestion.py lines 156-211).  The
outcome of each city's `fetch_api_with_retry` call is an oracle input
`fetchRes` (see the fetch model above for what the real fetch can produce);
`validate_data` and `save_raw_data` are the functions modelled above.
Arguments: remaining cities, then the accumulated `success_count`,
`failure_count`, fetch-call count and saved artifacts.  `allCities` is the
full configured list, which the summary reports regardless of where the loop
stopped; `dr` is the date range computed before the loop. -/
def mainLoop (is_lambda : Bool) (bucket_name : Option String)
    (fetchRes : City → Except PyErr (Option WeatherAPIResponse))
    (allCities : List City) (ts : Timestamp) (dr : Int × Int) :
    List City → Nat → Nat → Nat → List SavedArtifact → RunTrace
  | [], s, f, k, saved =>
    -- lines 193-211: the summary, with the literal `30 * 24` of line 209
    ⟨.ok dr, k, saved, .ok ⟨s, f, s * 30 * 24, allCities.map City.name⟩⟩
  | city :: rest, s, f, k, saved =>
    match fetchRes city with
    | .error e =>
      -- an exception raised inside the fetch escapes main (no handler)
      ⟨.ok dr, k + 1, saved, .error e⟩
    | .ok none =>
      -- lines 172-175: definitive fetch failure, count and continue
      mainLoop is_lambda bucket_name fetchRes allCities ts dr rest s (f + 1) (k + 1) saved
    | .ok (some raw) =>
      match validate_data raw with
      | none =>
        -- lines 180-183: validation failure, count and continue
        mainLoop is_lambda bucket_name fetchRes allCities ts dr rest s (f + 1) (k + 1) saved
      | some _ =>
        -- line 186: persist the raw payload (the validated model is unused)
        match save_raw_data is_lambda bucket_name city ts raw with
        | .error e =>
          -- an exception raised inside save_raw_data escapes main
          ⟨.ok dr, k + 1, saved, .error e⟩
        | .ok art =>
          mainLoop is_lambda bucket_name fetchRes allCities ts dr rest (s + 1) f (k + 1)
            (saved ++ [art])

/-- Model of `main` (src/ingestion.py lines 143-211): computes the date
range, captures the single ingestion timestamp `ts`, then runs the per-city
loop. -/
def main (is_lambda : Bool) (bucket_name : Option String) (today history_days : Int)
    (fetchRes : City → Except PyErr (Option WeatherAPIResponse))
    (cities : List City) (ts : Timestamp) : RunTrace :=
  match get_date_range today history_days with
  | .error e => ⟨.error e, 0, [], .error e⟩
  | .ok dr => mainLoop is_lambda bucket_name fetchRes cities ts dr cities 0 0 0 []

/-- A city's fetch outcome neither raised nor returned the definitive
failure, and its payload passed validation. -/
def goodCity (fetchRes : City → Except PyErr (Option WeatherAPIResponse))
    (c : City) : Bool :=
  match fetchRes c with
  | .ok (some raw) => (validate_data raw).isSome
  | _ => false

/-- A city's fetch call returned (rather than raising an exception). -/
def fetchReturned (fetchRes : City → Except PyErr (Option WeatherAPIResponse))
    (c : City) : Bool :=
  match fetchRes c with
  | .error _ => false
  | .ok _ => true

/-! ## Loop invariants of the orchestrator -/

/-- Helper: a city whose fetch and validation succeed has a fetch call that
returned. -/
theorem goodCity_fetchReturned {fetchRes : City → Except PyErr (Option WeatherAPIResponse)}
    {c : City} (h : goodCity fetchRes c = true) : fetchReturned fetchRes c = true := by
  unfold goodCity at h
  unfold fetchReturned
  cases hfc : fetchRes c with
  | error e => rw [hfc] at h; exact absurd h (by simp)
  | ok o => rfl

/-- Helper: whatever the loop does, a summary it returns computes
`total_records` as `success_count * 30 * 24` (the literal of line 209) and
reports the full configured city list. -/
theorem mainLoop_result_shape (is_lambda : Bool) (bucket_name : Option String)
    (fetchRes : City → Except PyErr (Option WeatherAPIResponse))
    (allCities : List City) (ts : Timestamp) (dr : Int × Int) :
    ∀ (cs : List City) (s f k : Nat) (saved : List SavedArtifact) (res : RunSummary),
      (mainLoop is_lambda bucket_name fetchRes allCities ts dr cs s f k saved).result = .ok res →
      res.total_records = res.success_count * 30 * 24 ∧
      res.cities_processed = allCities.map City.name := by
  intro cs
  induction cs with
  | nil =>
    intro s f k saved res h
    simp only [mainLoop] at h
    rw [(Except.ok.inj h).symm]
    exact ⟨rfl, rfl⟩
  | cons c rest ih =>
    intro s f k saved res h
    simp only [mainLoop] at h
    split at h
    · exact absurd h (by simp)
    · exact ih _ _ _ _ _ h
    · split at h
      · exact ih _ _ _ _ _ h
      · split at h
        · exact absurd h (by simp)
        · exact ih _ _ _ _ _ h

/-- Helper: componentwise equality of returned summaries. -/
theorem runSummary_ext {a b c a2 b2 c2 : Nat} {l l2 : List String}
    (h1 : a = a2) (h2 : b = b2) (h3 : c = c2) (h4 : l = l2) :
    (Except.ok ⟨a, b, c, l⟩ : Except PyErr RunSummary) = .ok ⟨a2, b2, c2, l2⟩ := by
  rw [h1, h2, h3, h4]

/-- Helper: with local storage (`is_lambda = false`) and every remaining
fetch call returning, the loop completes: it fetches once per city and
returns the summary whose success count adds the cities that fetched and
validated, whose failure count adds the rest, and whose record total uses
the literal `30 * 24`. -/
theorem mainLoop_no_abort (bucket_name : Option String)
    (fetchRes : City → Except PyErr (Option WeatherAPIResponse))
    (allCities : List City) (ts : Timestamp) (dr : Int × Int) :
    ∀ (cs : List City) (s f k : Nat) (saved : List SavedArtifact),
      (∀ c ∈ cs, fetchReturned fetchRes c = true) →
      (mainLoop false bucket_name fetchRes allCities ts dr cs s f k saved).fetchCalls =
        k + cs.length ∧
      (mainLoop false bucket_name fetchRes allCities ts dr cs s f k saved).result =
        .ok ⟨s + cs.countP (goodCity fetchRes),
             f + cs.countP (fun x => !goodCity fetchRes x),
             (s + cs.countP (goodCity fetchRes)) * 30 * 24,
             allCities.map City.name⟩ := by
  intro cs
  induction cs with
  | nil =>
    intro s f k saved h
    simp [mainLoop]
  | cons c rest ih =>
    intro s f k saved h
    have hc := h c (List.mem_cons_self c rest)
    have hrest : ∀ x ∈ rest, fetchReturned fetchRes x = true :=
      fun x hx => h x (List.mem_cons_of_mem c hx)
    cases hfc : fetchRes c with
    | error e =>
      exact absurd hc (by simp [fetchReturned, hfc])
    | ok o =>
      cases o with
      | none =>
        have hg : goodCity fetchRes c = false := by simp [goodCity, hfc]
        have hrec := ih s (f + 1) (k + 1) saved hrest
        have h1 : (c :: rest).countP (goodCity fetchRes) =
            rest.countP (goodCity fetchRes) := by
          simp [List.countP_cons, hg]
        have h2 : (c :: rest).countP (fun x => !goodCity fetchRes x) =
            rest.countP (fun x => !goodCity fetchRes x) + 1 := by
          simp [List.countP_cons, hg]
        constructor
        · simp only [mainLoop, hfc]
          rw [hrec.1]
          simp only [List.length_cons]
          omega
        · simp only [mainLoop, hfc]
          rw [hrec.2, h1, h2]
          exact runSummary_ext rfl (by omega) rfl rfl
      | some raw =>
        cases hv : validate_data raw with
        | none =>
          have hg : goodCity fetchRes c = false := by simp [goodCity, hfc, hv]
          have hrec := ih s (f + 1) (k + 1) saved hrest
          have h1 : (c :: rest).countP (goodCity fetchRes) =
              rest.countP (goodCity fetchRes) := by
            simp [List.countP_cons, hg]
          have h2 : (c :: rest).countP (fun x => !goodCity fetchRes x) =
              rest.countP (fun x => !goodCity fetchRes x) + 1 := by
            simp [List.countP_cons, hg]
          constructor
          · simp only [mainLoop, hfc, hv]
            rw [hrec.1]
            simp only [List.length_cons]
            omega
          · simp only [mainLoop, hfc, hv]
            rw [hrec.2, h1, h2]
            exact runSummary_ext rfl (by omega) rfl rfl
        | some m =>
          have hg : goodCity fetchRes c = true := by simp [goodCity, hfc, hv]
          have hrec := ih (s + 1) f (k + 1)
            (saved ++ [⟨local_filepath c ts, isoformat ts, c.name, c.latitude,
              c.longitude, c.country, raw⟩]) hrest
          have h1 : (c :: rest).countP (goodCity fetchRes) =
              rest.countP (goodCity fetchRes) + 1 := by
            simp [List.countP_cons, hg]
          have h2 : (c :: rest).countP (fun x => !goodCity fetchRes x) =
              rest.countP (fun x => !goodCity fetchRes x) := by
            simp [List.countP_cons, hg]
          constructor
          · simp only [mainLoop, hfc, hv, save_raw_data, Bool.false_eq_true, if_false]
            rw [hrec.1]
            simp only [List.length_cons]
            omega
          · simp only [mainLoop, hfc, hv, save_raw_data, Bool.false_eq_true, if_false]
            rw [hrec.2, h1, h2]
            exact runSummary_ext (by omega) rfl (by omega) rfl

/-! ## Claim C2: per-location isolation of a definitive fetch failure

The per-city fetch outcome is the oracle input of the orchestrator model
(the orchestrator consumes exactly the value `fetch_api_with_retry`
returns); `Except.ok none` is the definitive no-payload failure of a city
that exhausted its retries. -/

/-- C2: if one city's fetch yields the definitive failure while every other
city fetches and validates successfully, the run still fetches every city
(one fetch call per configured city, including those after the failing one)
and returns a summary counting all other cities as successes, exactly one
failure, and naming every attempted city. -/
theorem run_isolates_fetch_exhaustion
    (bucket_name : Option String) (today history_days : Int)
    (fetchRes : City → Except PyErr (Option WeatherAPIResponse)) (ts : Timestamp)
    (pre post : List City) (bad : City)
    (hdr : dateMinOrdinal ≤ today - 1 - history_days ∧
      today - 1 - history_days ≤ dateMaxOrdinal)
    (hbad : fetchRes bad = .ok none)
    (hgood : ∀ c ∈ pre ++ post, goodCity fetchRes c = true) :
    (main false bucket_name today history_days fetchRes (pre ++ bad :: post) ts).fetchCalls =
      pre.length + 1 + post.length ∧
    (main false bucket_name today history_days fetchRes (pre ++ bad :: post) ts).result =
      .ok ⟨pre.length + post.length, 1, (pre.length + post.length) * 30 * 24,
           (pre ++ bad :: post).map City.name⟩ := by
  have hdr2 := get_date_range_ok_of_bounds today history_days hdr
  have hall : ∀ c ∈ pre ++ bad :: post, fetchReturned fetchRes c = true := by
    intro c hcm
    rcases List.mem_append.mp hcm with hpre | hrest
    · exact goodCity_fetchReturned (hgood c (List.mem_append_left post hpre))
    · rcases List.mem_cons.mp hrest with hcbad | hpost
      · rw [hcbad]
        simp [fetchReturned, hbad]
      · exact goodCity_fetchReturned (hgood c (List.mem_append_right pre hpost))
  have hbadf : goodCity fetchRes bad = false := by simp [goodCity, hbad]
  have hg1 : (pre ++ bad :: post).countP (goodCity fetchRes) =
      pre.length + post.length := by
    rw [List.countP_append, List.countP_cons]
    rw [List.countP_eq_length.mpr (fun c hcm => hgood c (List.mem_append_left post hcm))]
    rw [List.countP_eq_length.mpr (fun c hcm => hgood c (List.mem_append_right pre hcm))]
    simp [hbadf]
  have hg2 : (pre ++ bad :: post).countP (fun x => !goodCity fetchRes x) = 1 := by
    rw [List.countP_append, List.countP_cons]
    have hz1 : pre.countP (fun x => !goodCity fetchRes x) = 0 := by
      rw [List.countP_eq_zero]
      intro c hcm
      simp [hgood c (List.mem_append_left post hcm)]
    have hz2 : post.countP (fun x => !goodCity fetchRes x) = 0 := by
      rw [List.countP_eq_zero]
      intro c hcm
      simp [hgood c (List.mem_append_right pre hcm)]
    simp [hz1, hz2, hbadf]
  have hno := mainLoop_no_abort bucket_name fetchRes (pre ++ bad :: post) ts
    (today - 1 - history_days, today - 1) (pre ++ bad :: post) 0 0 0 [] hall
  constructor
  · simp only [main, hdr2]
    rw [hno.1]
    simp [List.length_append]
    omega
  · simp only [main, hdr2]
    rw [hno.2, hg1, hg2]
    exact runSummary_ext (by omega) (by omega) (by omega) rfl

/-- The ingestion timestamp used by the concrete runs below. -/
def ts0 : Timestamp := ⟨2026, 10, 12, 6, 5, 30⟩

/-- A fetch oracle under which every city fetches the valid sample payload. -/
def allGoodFetch : City → Except PyErr (Option WeatherAPIResponse) :=
  fun _ => .ok (some samplePayload)

/-- A fetch oracle under which Singapore exhausts its retries (definitive
failure) and every other city fetches the valid sample payload. -/
def singaporeFails : City → Except PyErr (Option WeatherAPIResponse) :=
  fun c => if c.name = "Singapore" then .ok none else .ok (some samplePayload)

theorem run_isolates_fetch_exhaustion_witness :
    (main false none 739901 30 singaporeFails ([newYork] ++ singapore :: [tokyo]) ts0).fetchCalls =
      [newYork].length + 1 + [tokyo].length ∧
    (main false none 739901 30 singaporeFails ([newYork] ++ singapore :: [tokyo]) ts0).result =
      .ok ⟨[newYork].length + [tokyo].length, 1,
           ([newYork].length + [tokyo].length) * 30 * 24,
           ([newYork] ++ singapore :: [tokyo]).map City.name⟩ :=
  run_isolates_fetch_exhaustion none 739901 30 singaporeFails ts0 [newYork] [tokyo]
    singapore (by constructor <;> decide) (by decide) (by decide)

/-! ## Claim C6: the summary record total -/

/-- C6 counterexample: the claim says the summary total equals
`success_count` times the configured lookback times 24 for any configured
lookback.  With a lookback of 7 days and one successful city, the code
returns `total_records = 720` (the hard-coded `30 * 24` of line 209), not
`1 * 7 * 24 = 168`. -/
theorem run_total_records_ignores_lookback_cex :
    (main false none 739901 7 allGoodFetch [tokyo] ts0).result =
      .ok ⟨1, 0, 720, ["Tokyo"]⟩ ∧ (720 : Nat) ≠ 1 * (7 * 24) := by
  constructor
  · decide
  · decide

/-- C6 amended: the summary total is `success_count * 30 * 24` with the
literal 30 regardless of the configured lookback (it agrees with
`success_count * lookback * 24` only when the lookback is 30); the summary
also lists the names of every configured city. -/
theorem run_total_records_uses_literal_30 (is_lambda : Bool)
    (bucket_name : Option String) (today history_days : Int)
    (fetchRes : City → Except PyErr (Option WeatherAPIResponse))
    (cities : List City) (ts : Timestamp) (res : RunSummary)
    (h : (main is_lambda bucket_name today history_days fetchRes cities ts).result =
      .ok res) :
    res.total_records = res.success_count * 30 * 24 ∧
    res.cities_processed = cities.map City.name := by
  unfold main at h
  cases hdr : get_date_range today history_days with
  | error e =>
    rw [hdr] at h
    exact absurd h (by simp)
  | ok dr =>
    rw [hdr] at h
    exact mainLoop_result_shape is_lambda bucket_name fetchRes cities ts dr
      cities 0 0 0 [] res h

theorem run_total_records_uses_literal_30_witness :
    (⟨1, 0, 720, ["Tokyo"]⟩ : RunSummary).total_records =
      (⟨1, 0, 720, ["Tokyo"]⟩ : RunSummary).success_count * 30 * 24 ∧
    (⟨1, 0, 720, ["Tokyo"]⟩ : RunSummary).cities_processed = [tokyo].map City.name :=
  run_total_records_uses_literal_30 false none 739901 30 allGoodFetch [tokyo] ts0
    ⟨1, 0, 720, ["Tokyo"]⟩ (by decide)

/-! ## Claim C5: the missing-bucket configuration error -/

/-- Helper: with the Lambda storage branch active and no bucket configured,
no artifact is ever persisted — every save attempt raises instead. -/
theorem mainLoop_missing_bucket_saves_nothing
    (fetchRes : City → Except PyErr (Option WeatherAPIResponse))
    (allCities : List City) (ts : Timestamp) (dr : Int × Int) :
    ∀ (cs : List City) (s f k : Nat) (saved : List SavedArtifact),
      (mainLoop true none fetchRes allCities ts dr cs s f k saved).saved = saved := by
  intro cs
  induction cs with
  | nil =>
    intro s f k saved
    simp [mainLoop]
  | cons c rest ih =>
    intro s f k saved
    cases hfc : fetchRes c with
    | error e => simp [mainLoop, hfc]
    | ok o =>
      cases o with
      | none =>
        simp only [mainLoop, hfc]
        exact ih s (f + 1) (k + 1) saved
      | some raw =>
        cases hv : validate_data raw with
        | none =>
          simp only [mainLoop, hfc, hv]
          exact ih s (f + 1) (k + 1) saved
        | some m =>
          simp [mainLoop, hfc, hv, save_raw_data]

/-- Helper: with the Lambda storage branch active and no bucket configured,
as soon as some city fetches and validates successfully the run aborts with
the `S3_BUCKET_NAME` ValueError, after at least one more fetch call. -/
theorem mainLoop_missing_bucket_aborts
    (fetchRes : City → Except PyErr (Option WeatherAPIResponse))
    (allCities : List City) (ts : Timestamp) (dr : Int × Int) :
    ∀ (cs : List City) (s f k : Nat) (saved : List SavedArtifact),
      (∀ c ∈ cs, fetchReturned fetchRes c = true) →
      (∃ c ∈ cs, goodCity fetchRes c = true) →
      (mainLoop true none fetchRes allCities ts dr cs s f k saved).result =
        .error (.valueError "S3_BUCKET_NAME environment variable is not set") ∧
      k < (mainLoop true none fetchRes allCities ts dr cs s f k saved).fetchCalls := by
  intro cs
  induction cs with
  | nil =>
    intro s f k saved h hex
    exact absurd hex (by simp)
  | cons c rest ih =>
    intro s f k saved h hex
    have hc := h c (List.mem_cons_self c rest)
    have hrest : ∀ x ∈ rest, fetchReturned fetchRes x = true :=
      fun x hx => h x (List.mem_cons_of_mem c hx)
    cases hfc : fetchRes c with
    | error e =>
      exact absurd hc (by simp [fetchReturned, hfc])
    | ok o =>
      cases o with
      | none =>
        have hex2 : ∃ x ∈ rest, goodCity fetchRes x = true := by
          rcases hex with ⟨x, hxm, hxg⟩
          rcases List.mem_cons.mp hxm with hxc | hxr
          · rw [hxc] at hxg
            exact absurd hxg (by simp [goodCity, hfc])
          · exact ⟨x, hxr, hxg⟩
        have hrec := ih s (f + 1) (k + 1) saved hrest hex2
        constructor
        · simp only [mainLoop, hfc]
          exact hrec.1
        · simp only [mainLoop, hfc]
          have := hrec.2
          omega
      | some raw =>
        cases hv : validate_data raw with
        | none =>
          have hex2 : ∃ x ∈ rest, goodCity fetchRes x = true := by
            rcases hex with ⟨x, hxm, hxg⟩
            rcases List.mem_cons.mp hxm with hxc | hxr
            · rw [hxc] at hxg
              exact absurd hxg (by simp [goodCity, hfc, hv])
            · exact ⟨x, hxr, hxg⟩
          have hrec := ih s (f + 1) (k + 1) saved hrest hex2
          constructor
          · simp only [mainLoop, hfc, hv]
            exact hrec.1
          · simp only [mainLoop, hfc, hv]
            have := hrec.2
            omega
        | some m =>
          constructor
          · simp [mainLoop, hfc, hv, save_raw_data]
          · simp [mainLoop, hfc, hv, save_raw_data]

/-- C5 counterexample: the claim says a missing bucket name in the deployed
environment is fatal before any per-location work, in particular before any
fetch.  In the code the check sits inside `save_raw_data`, so the run does
abort with the configuration ValueError, but only at the first persist
attempt: by then one fetch call has already happened. -/
theorem missing_bucket_checked_after_fetch_cex :
    (main true none 739901 30 allGoodFetch [newYork] ts0).result =
      .error (.valueError "S3_BUCKET_NAME environment variable is not set") ∧
    (main true none 739901 30 allGoodFetch [newYork] ts0).fetchCalls = 1 := by
  constructor
  · decide
  · decide

/-- C5 amended: in the deployed environment with no bucket configured, the
run never persists anything, and once some city fetches and validates
successfully it aborts with the fatal `S3_BUCKET_NAME` ValueError — but the
check happens inside the first successful persist attempt, after at least
one fetch, not before the per-location loop. -/
theorem missing_bucket_fatal_at_first_persist
    (today history_days : Int)
    (fetchRes : City → Except PyErr (Option WeatherAPIResponse))
    (cities : List City) (ts : Timestamp)
    (hdr : dateMinOrdinal ≤ today - 1 - history_days ∧
      today - 1 - history_days ≤ dateMaxOrdinal)
    (hfetch : ∀ c ∈ cities, fetchReturned fetchRes c = true)
    (hsome : ∃ c ∈ cities, goodCity fetchRes c = true) :
    (main true none today history_days fetchRes cities ts).saved = [] ∧
    (main true none today history_days fetchRes cities ts).result =
      .error (.valueError "S3_BUCKET_NAME environment variable is not set") ∧
    1 ≤ (main true none today history_days fetchRes cities ts).fetchCalls := by
  have hdr2 := get_date_range_ok_of_bounds today history_days hdr
  have habort := mainLoop_missing_bucket_aborts fetchRes cities ts
    (today - 1 - history_days, today - 1) cities 0 0 0 [] hfetch hsome
  refine ⟨?_, ?_, ?_⟩
  · simp only [main, hdr2]
    exact mainLoop_missing_bucket_saves_nothing fetchRes cities ts
      (today - 1 - history_days, today - 1) cities 0 0 0 []
  · simp only [main, hdr2]
    exact habort.1
  · simp only [main, hdr2]
    have := habort.2
    omega

theorem missing_bucket_fatal_at_first_persist_witness :
    (main true none 739901 30 allGoodFetch [newYork] ts0).saved = [] ∧
    (main true none 739901 30 allGoodFetch [newYork] ts0).result =
      .error (.valueError "S3_BUCKET_NAME environment variable is not set") ∧
    1 ≤ (main true none 739901 30 allGoodFetch [newYork] ts0).fetchCalls :=
  missing_bucket_fatal_at_first_persist 739901 30 allGoodFetch [newYork] ts0
    (by constructor <;> decide) (by decide)
    ⟨newYork, List.mem_singleton.mpr rfl, by decide⟩

/-! ## Claim C10: one ingestion timestamp per run -/

/-- Helper: the loop only appends artifacts produced by `save_raw_data`
called with the single run timestamp `ts`, so the timestamp invariant on the
accumulated artifact list is preserved. -/
theorem mainLoop_saved_timestamp (is_lambda : Bool) (bucket_name : Option String)
    (fetchRes : City → Except PyErr (Option WeatherAPIResponse))
    (allCities : List City) (ts : Timestamp) (dr : Int × Int) :
    ∀ (cs : List City) (s f k : Nat) (saved : List SavedArtifact),
      (∀ a ∈ saved, a.ingested_at = isoformat ts ∧
        ∃ c : City, a.key = keyOf is_lambda bucket_name c ts) →
      ∀ a ∈ (mainLoop is_lambda bucket_name fetchRes allCities ts dr cs s f k saved).saved,
        a.ingested_at = isoformat ts ∧
        ∃ c : City, a.key = keyOf is_lambda bucket_name c ts := by
  intro cs
  induction cs with
  | nil =>
    intro s f k saved hinv a ham
    simp only [mainLoop] at ham
    exact hinv a ham
  | cons c rest ih =>
    intro s f k saved hinv a ham
    simp only [mainLoop] at ham
    split at ham
    · exact hinv a ham
    · exact ih _ _ _ _ hinv a ham
    · split at ham
      · exact ih _ _ _ _ hinv a ham
      · split at ham
        · exact hinv a ham
        · rename_i art heq
          refine ih _ _ _ _ (fun b hbm => ?_) a ham
          rcases List.mem_append.mp hbm with hbs | hbnew
          · exact hinv b hbs
          · rw [List.mem_singleton.mp hbnew]
            have hspec := save_raw_data_ok_spec heq
            exact ⟨hspec.1, ⟨c, hspec.2⟩⟩

/-- C10: every artifact persisted during one run carries the run's single
ingestion timestamp, captured once before the loop: its `ingested_at` field
is that timestamp's isoformat, and its key is the timestamp-qualified key of
some city with the same date and time components. -/
theorem run_single_ingestion_timestamp (is_lambda : Bool) (bucket_name : Option String)
    (today history_days : Int)
    (fetchRes : City → Except PyErr (Option WeatherAPIResponse))
    (cities : List City) (ts : Timestamp) (a : SavedArtifact)
    (ha : a ∈ (main is_lambda bucket_name today history_days fetchRes cities ts).saved) :
    a.ingested_at = isoformat ts ∧
    ∃ c : City, a.key = keyOf is_lambda bucket_name c ts := by
  unfold main at ha
  cases hdr : get_date_range today history_days with
  | error e =>
    rw [hdr] at ha
    exact absurd ha (by simp)
  | ok dr =>
    rw [hdr] at ha
    exact mainLoop_saved_timestamp is_lambda bucket_name fetchRes cities ts dr
      cities 0 0 0 [] (fun b hb => absurd hb (List.not_mem_nil b)) a ha

/-- A default artifact, used only to select an element of a saved list. -/
def dummyArtifact : SavedArtifact := ⟨"", "", "", 0, 0, "", samplePayload⟩

/-- A city with integer coordinates, convenient for computed witnesses. -/
def osaka : City := ⟨"Osaka", 34, 135, "Japan"⟩

theorem run_single_ingestion_timestamp_witness :
    ((main false none 739901 30 allGoodFetch [osaka] ts0).saved.getD 0
        dummyArtifact).ingested_at = isoformat ts0 ∧
    ∃ c : City, ((main false none 739901 30 allGoodFetch [osaka] ts0).saved.getD 0
        dummyArtifact).key = keyOf false none c ts0 :=
  run_single_ingestion_timestamp false none 739901 30 allGoodFetch [osaka] ts0
    ((main false none 739901 30 allGoodFetch [osaka] ts0).saved.getD 0 dummyArtifact)
    (by decide)

/-! ## Claim C8: keys of repeated and distinct persists -/

/-- String length distributes over append. -/
theorem string_length_append (a b : String) :
    (a ++ b).length = a.length + b.length := by
  show (a ++ b).data.length = a.data.length + b.data.length
  rw [String.data_append, List.length_append]

/-- Helper: two cities whose normalized names differ in length get distinct
local file paths for the same timestamp (every other key component is a
function of the timestamp alone). -/
theorem local_filepath_ne_of_name_len {c1 c2 : City} (ts : Timestamp)
    (h : (pyRemoveSpaces (pyLower c1.name)).length ≠
      (pyRemoveSpaces (pyLower c2.name)).length) :
    local_filepath c1 ts ≠ local_filepath c2 ts := by
  intro he
  have hl := congrArg String.length he
  simp only [local_filepath, string_length_append] at hl
  omega

/-- C8 counterexample: the claim says persisting the same location/timestamp
pair twice produces two distinct artifacts under distinct keys.  The key is
a pure function of the city name and the timestamp: both persists of the
pair (New York, ts0) write under the identical key below, so the keys are
not distinct and the second write overwrites the first. -/
theorem save_same_pair_same_key_cex :
    Except.map SavedArtifact.key (save_raw_data false none newYork ts0 samplePayload) =
      Except.ok ("data/raw/year=2026/month=10/day=12/newyork_20261012_060530.json") ∧
    ¬ (local_filepath newYork ts0 ≠ local_filepath newYork ts0) := by
  constructor
  · rfl
  · exact fun h => h rfl

/-- C8 amended: a persist call's key is determined by the city and the run
timestamp — repeating a persist of the same pair reuses the identical key
(an overwrite, not a second artifact) — while within one run the configured
cities write under pairwise distinct keys, because their normalized names
differ. -/
theorem save_keys_within_run (ts : Timestamp) :
    (∀ (c : City) (data : WeatherAPIResponse),
      Except.map SavedArtifact.key (save_raw_data false none c ts data) =
        Except.ok (local_filepath c ts)) ∧
    local_filepath newYork ts ≠ local_filepath singapore ts ∧
    local_filepath newYork ts ≠ local_filepath tokyo ts ∧
    local_filepath singapore ts ≠ local_filepath tokyo ts := by
  refine ⟨fun c data => rfl, ?_, ?_, ?_⟩
  · exact local_filepath_ne_of_name_len ts (by decide)
  · exact local_filepath_ne_of_name_len ts (by decide)
  · exact local_filepath_ne_of_name_len ts (by decide)

end WeatherPipeline
